import Mathlib

/-!
Verification of the UniRef dataset loader
(`Folder_Results_Storing_Scripts/new_uniref_dataset.py`).

The development shallowly embeds the two components of the file:
the corpus loader (`UniRefDataset.__init__`) and the per-item
embedding adapter (`UniRefDataset.__getitem__`).  Python strings are
modelled through `List Char` primitives so that every definition is
executable by the kernel; the pandas dataframe is modelled as a list
of rows with optional cells (`pd.notna` false becomes `none`); the
global `random` generator is modelled as explicit state threading of
a deterministic generator exposing the documented contract of
`random.sample` (a function of the seeded state returning distinct
positions, in drawn order).
-/

/- ### Python string primitives -/

/-- Whitespace recognized by Python `str.strip()` (ASCII fragment). -/
def isPySpace (c : Char) : Bool :=
  c = ' ' || c = '\t' || c = '\n' || c = '\r' || c = '\x0b' || c = '\x0c'

/-- Character-level model of Python `str.strip()`. -/
def stripChars (cs : List Char) : List Char :=
  ((cs.dropWhile isPySpace).reverse.dropWhile isPySpace).reverse

/-- Model of Python `s.strip()`. -/
def pyStrip (s : String) : String := String.mk (stripChars s.data)

/-- Character-level model of Python `s.split(';')`: cutting at every
semicolon, returning one (possibly empty) piece more than the number of
separators; the empty string yields one empty piece. -/
def splitSemiChars : List Char → List (List Char)
  | [] => [[]]
  | c :: rest =>
    if c = ';' then [] :: splitSemiChars rest
    else
      match splitSemiChars rest with
      | [] => [[c]]
      | p :: ps => (c :: p) :: ps

/-- Model of Python `s.split(';')`. -/
def pySplitSemi (s : String) : List String :=
  (splitSemiChars s.data).map (fun cs => String.mk cs)

/-- Model of `str(row[col]).split(';')` guarded by `pd.notna(row[col])`:
a missing cell yields the empty list (lines 94-103 of the source; no
`strip` is applied there). -/
def splitSemiOpt : Option String → List String
  | some s => pySplitSemi s
  | none => []

/-- Model of the split-then-strip treatment of `Gene Ontology IDs` and
`Gene Ontology (GO)` (lines 85-90 of the source). -/
def splitStripSemiOpt : Option String → List String
  | some s => (pySplitSemi s).map pyStrip
  | none => []

/- ### Input rows and configuration -/

/-- One row of the tab-separated input table.  Cells that the source
guards with `pd.notna` are optional; `Sequence` and `Entry` are accessed
unguarded. -/
structure Row where
  Sequence : String
  Entry : String
  Organism : Option String := none
  Length : Option Nat := none
  GeneOntologyIDs : Option String := none
  GeneOntologyGO : Option String := none
  GOBiological : Option String := none
  GOCellular : Option String := none
  GOMolecular : Option String := none
  EntryName : Option String := none
  ProteinNames : Option String := none
  GeneNames : Option String := none
  CoiledCoil : Option String := none
  CompositionalBias : Option String := none
  DomainCC : Option String := none
  DomainFT : Option String := none
  Motif : Option String := none
  ProteinFamilies : Option String := none
  Region : Option String := none
  RepeatAnn : Option String := none
  SequenceSimilarities : Option String := none
  ZincFinger : Option String := none
deriving DecidableEq, Inhabited

/-- Construction parameters of `UniRefDataset.__init__` relevant to the
corpus loader. -/
structure Config where
  max_seq_len : Nat
  max_samples : Nat
  random_seed : Nat
  human_filter : Bool
deriving DecidableEq

/-- Line 78 of the source: `length_ok = len(seq) <= max_seq_len`. -/
def length_ok (cfg : Config) (row : Row) : Bool :=
  row.Sequence.length ≤ cfg.max_seq_len

/-- Line 79 of the source:
`organism_ok = organism == "Homo sapiens (Human)" if human_filter else True`,
where `organism` is `None` when the cell is missing. -/
def organism_ok (cfg : Config) (row : Row) : Bool :=
  if cfg.human_filter then row.Organism = some "Homo sapiens (Human)" else true

/-- Row eligibility, line 81 of the source: `if length_ok and organism_ok`. -/
def eligible (cfg : Config) (row : Row) : Bool :=
  length_ok cfg row && organism_ok cfg row

/- ### Retained records -/

/-- The full attribute tuple extracted from one eligible row (the values
appended to the parallel `all_eligible_*` lists in one loop iteration,
lines 82-121 of the source). -/
structure Record where
  sequence : String
  entry : String
  go_ids : List String
  go_terms : List String
  length : Option Nat
  go_biological : List String
  go_cellular : List String
  go_molecular : List String
  entry_name : Option String
  protein_names : Option String
  gene_names : Option String
  organism : Option String
  coiled_coil : Option String
  compositional_bias : Option String
  domain_cc : Option String
  domain_ft : Option String
  motif : Option String
  protein_families : Option String
  region : Option String
  repeat_ann : Option String
  sequence_similarities : Option String
  zinc_finger : Option String
deriving DecidableEq, Inhabited

/-- Field extraction for one eligible row (the body of the `if` branch,
lines 82-121).  `Gene Ontology IDs` and `Gene Ontology (GO)` are split
and stripped; the three GO category columns are split only. -/
def recordOf (row : Row) : Record where
  sequence := row.Sequence
  entry := row.Entry
  go_ids := splitStripSemiOpt row.GeneOntologyIDs
  go_terms := splitStripSemiOpt row.GeneOntologyGO
  length := row.Length
  go_biological := splitSemiOpt row.GOBiological
  go_cellular := splitSemiOpt row.GOCellular
  go_molecular := splitSemiOpt row.GOMolecular
  entry_name := row.EntryName
  protein_names := row.ProteinNames
  gene_names := row.GeneNames
  organism := row.Organism
  coiled_coil := row.CoiledCoil
  compositional_bias := row.CompositionalBias
  domain_cc := row.DomainCC
  domain_ft := row.DomainFT
  motif := row.Motif
  protein_families := row.ProteinFamilies
  region := row.Region
  repeat_ann := row.RepeatAnn
  sequence_similarities := row.SequenceSimilarities
  zinc_finger := row.ZincFinger

/-- One iteration of the filtering loop: an eligible row contributes its
record, an ineligible row contributes nothing. -/
def processRow (cfg : Config) (row : Row) : Option Record :=
  if eligible cfg row then some (recordOf row) else none

/-- The eligible set in input order (the parallel `all_eligible_*` lists,
viewed as one list of records). -/
def allEligible (cfg : Config) (rows : List Row) : List Record :=
  rows.filterMap (processRow cfg)

/- ### The random generator and `random.sample` -/

/-- Deterministic successor function of the model generator state
(a linear congruential step standing in for the external `random`
module's generator, which is likewise a pure function of its state). -/
def lcg (g : Nat) : Nat := (1103515245 * g + 12345) % 2147483648

/-- Model of `random.sample(range n, k)` as selection sampling: each
draw advances the generator state, picks one remaining element of the
pool and removes it, so the result lists distinct elements in the order
they were drawn.  Returns the drawn elements together with the final
generator state. -/
def sampleAux : Nat → List Nat → Nat → List Nat × Nat
  | 0, _, g => ([], g)
  | k + 1, pool, g =>
    if pool.length = 0 then ([], g)
    else
      let g1 := lcg g
      let j := g1 % pool.length
      let rest := sampleAux k (pool.eraseIdx j) g1
      (pool.getD j 0 :: rest.1, rest.2)

/-- Model of `random.sample(range(n), k)` run in generator state `g`. -/
def randomSampleG (n k g : Nat) : List Nat × Nat :=
  sampleAux k (List.range n) g

/-- The index list drawn at line 136 of the source,
`indices = random.sample(range(total_eligible), max_samples)`, after
`random.seed(random_seed)` reset the generator state at line 28. -/
def sampledIndices (cfg : Config) (rows : List Row) : List Nat :=
  (randomSampleG (allEligible cfg rows).length cfg.max_samples cfg.random_seed).1

/- ### The constructed dataset -/

/-- The parallel per-attribute arrays stored on `self` by
`UniRefDataset.__init__`. -/
structure Dataset where
  sequences : List String
  metadata : List String
  go_ids : List (List String)
  go_terms : List (List String)
  lengths : List (Option Nat)
  go_biological : List (List String)
  go_cellular : List (List String)
  go_molecular : List (List String)
  entry_names : List (Option String)
  protein_names : List (Option String)
  gene_names : List (Option String)
  organisms : List (Option String)
  coiled_coil : List (Option String)
  compositional_bias : List (Option String)
  domain_cc : List (Option String)
  domain_ft : List (Option String)
  motif : List (Option String)
  protein_families : List (Option String)
  region : List (Option String)
  repeat_ann : List (Option String)
  sequence_similarities : List (Option String)
  zinc_finger : List (Option String)
deriving DecidableEq

/-- Model of the list comprehension `[xs[i] for i in indices]` used at
lines 137-158 of the source to sample one per-attribute array.  The
default is irrelevant on the executed path: `random.sample` only returns
in-range indices. -/
def sampleArr {α : Type} (dflt : α) (xs : List α) (indices : List Nat) : List α :=
  indices.map (fun i => xs.getD i dflt)

/-- The corpus loader, `UniRefDataset.__init__` lines 73-184, as explicit
generator-state passing: `g` is the global generator state on entry,
immediately overwritten by `random.seed(random_seed)` (line 28); the
second component is the generator state on exit.  When the eligible
count exceeds `max_samples` every per-attribute array is sampled with
the same drawn index list; otherwise all arrays keep the eligible rows
in input order. -/
def buildDatasetG (cfg : Config) (rows : List Row) (_g : Nat) : Dataset × Nat :=
  let g0 := cfg.random_seed
  let elig := allEligible cfg rows
  if cfg.max_samples < elig.length then
    let draw := randomSampleG elig.length cfg.max_samples g0
    let indices := draw.1
    ({ sequences := sampleArr "" (elig.map Record.sequence) indices
       metadata := sampleArr "" (elig.map Record.entry) indices
       go_ids := sampleArr [] (elig.map Record.go_ids) indices
       go_terms := sampleArr [] (elig.map Record.go_terms) indices
       lengths := sampleArr none (elig.map Record.length) indices
       go_biological := sampleArr [] (elig.map Record.go_biological) indices
       go_cellular := sampleArr [] (elig.map Record.go_cellular) indices
       go_molecular := sampleArr [] (elig.map Record.go_molecular) indices
       entry_names := sampleArr none (elig.map Record.entry_name) indices
       protein_names := sampleArr none (elig.map Record.protein_names) indices
       gene_names := sampleArr none (elig.map Record.gene_names) indices
       organisms := sampleArr none (elig.map Record.organism) indices
       coiled_coil := sampleArr none (elig.map Record.coiled_coil) indices
       compositional_bias := sampleArr none (elig.map Record.compositional_bias) indices
       domain_cc := sampleArr none (elig.map Record.domain_cc) indices
       domain_ft := sampleArr none (elig.map Record.domain_ft) indices
       motif := sampleArr none (elig.map Record.motif) indices
       protein_families := sampleArr none (elig.map Record.protein_families) indices
       region := sampleArr none (elig.map Record.region) indices
       repeat_ann := sampleArr none (elig.map Record.repeat_ann) indices
       sequence_similarities := sampleArr none (elig.map Record.sequence_similarities) indices
       zinc_finger := sampleArr none (elig.map Record.zinc_finger) indices }, draw.2)
  else
    ({ sequences := elig.map Record.sequence
       metadata := elig.map Record.entry
       go_ids := elig.map Record.go_ids
       go_terms := elig.map Record.go_terms
       lengths := elig.map Record.length
       go_biological := elig.map Record.go_biological
       go_cellular := elig.map Record.go_cellular
       go_molecular := elig.map Record.go_molecular
       entry_names := elig.map Record.entry_name
       protein_names := elig.map Record.protein_names
       gene_names := elig.map Record.gene_names
       organisms := elig.map Record.organism
       coiled_coil := elig.map Record.coiled_coil
       compositional_bias := elig.map Record.compositional_bias
       domain_cc := elig.map Record.domain_cc
       domain_ft := elig.map Record.domain_ft
       motif := elig.map Record.motif
       protein_families := elig.map Record.protein_families
       region := elig.map Record.region
       repeat_ann := elig.map Record.repeat_ann
       sequence_similarities := elig.map Record.sequence_similarities
       zinc_finger := elig.map Record.zinc_finger }, g0)

/-- The constructed dataset (the generator state on entry is irrelevant
because `__init__` seeds the generator first; `0` is arbitrary). -/
def buildDataset (cfg : Config) (rows : List Row) : Dataset :=
  (buildDatasetG cfg rows 0).1

/-- The record-level view of the final corpus: the records selected by
the sampled indices in drawn order, or the whole eligible set. -/
def corpusRecords (cfg : Config) (rows : List Row) : List Record :=
  let elig := allEligible cfg rows
  if cfg.max_samples < elig.length then
    (sampledIndices cfg rows).map (fun i => elig.getD i default)
  else elig

/-- Packaging a record list as parallel per-attribute arrays. -/
def datasetOfRecords (rs : List Record) : Dataset where
  sequences := rs.map Record.sequence
  metadata := rs.map Record.entry
  go_ids := rs.map Record.go_ids
  go_terms := rs.map Record.go_terms
  lengths := rs.map Record.length
  go_biological := rs.map Record.go_biological
  go_cellular := rs.map Record.go_cellular
  go_molecular := rs.map Record.go_molecular
  entry_names := rs.map Record.entry_name
  protein_names := rs.map Record.protein_names
  gene_names := rs.map Record.gene_names
  organisms := rs.map Record.organism
  coiled_coil := rs.map Record.coiled_coil
  compositional_bias := rs.map Record.compositional_bias
  domain_cc := rs.map Record.domain_cc
  domain_ft := rs.map Record.domain_ft
  motif := rs.map Record.motif
  protein_families := rs.map Record.protein_families
  region := rs.map Record.region
  repeat_ann := rs.map Record.repeat_ann
  sequence_similarities := rs.map Record.sequence_similarities
  zinc_finger := rs.map Record.zinc_finger

/-- Line 187 of the source computes
`sum(len(seq) for seq in self.sequences)/len(self.sequences)` with no
guard; the error branch models Python raising `ZeroDivisionError` when
the denominator is zero, it is not a guard present in the source. -/
def averageSequenceLength (seqs : List String) : Except String Rat :=
  if seqs.length = 0 then
    Except.error "ZeroDivisionError: division by zero"
  else
    Except.ok (((seqs.map String.length).sum : Rat) / (seqs.length : Rat))

/- ### Python list indexing and the per-item adapter -/

/-- Model of Python list subscription `xs[idx]`: a negative index counts
from the end; an index outside `[-len, len)` raises `IndexError`. -/
def pyIndex {α : Type} (xs : List α) (idx : Int) : Except String α :=
  let j : Int := if idx < 0 then idx + xs.length else idx
  if 0 ≤ j then
    match xs[j.toNat]? with
    | some x => Except.ok x
    | none => Except.error "IndexError: list index out of range"
  else Except.error "IndexError: list index out of range"

/-- The `additional_metadata` dictionary assembled by `__getitem__`
(lines 199-218 of the source). -/
structure AdditionalMeta where
  length : Option Nat
  go_biological : List String
  go_cellular : List String
  go_molecular : List String
  entry_name : Option String
  protein_names : Option String
  gene_names : Option String
  organism : Option String
  coiled_coil : Option String
  compositional_bias : Option String
  domain_cc : Option String
  domain_ft : Option String
  motif : Option String
  protein_families : Option String
  region : Option String
  repeat_ann : Option String
  sequence_similarities : Option String
  zinc_finger : Option String
deriving DecidableEq

/-- The data retrieved from the parallel arrays by `__getitem__` before
the model is invoked: `(seq, metadata, go_ids, go_terms, additional)`.
Every subscription uses the same `idx`, and the first failing
subscription propagates its `IndexError`. -/
def getitemFields (d : Dataset) (idx : Int) :
    Except String (String × String × List String × List String × AdditionalMeta) := do
  let seq ← pyIndex d.sequences idx
  let md ← pyIndex d.metadata idx
  let gi ← pyIndex d.go_ids idx
  let gt ← pyIndex d.go_terms idx
  let flen ← pyIndex d.lengths idx
  let fbio ← pyIndex d.go_biological idx
  let fcel ← pyIndex d.go_cellular idx
  let fmol ← pyIndex d.go_molecular idx
  let fen ← pyIndex d.entry_names idx
  let fpn ← pyIndex d.protein_names idx
  let fgn ← pyIndex d.gene_names idx
  let forg ← pyIndex d.organisms idx
  let fcc ← pyIndex d.coiled_coil idx
  let fcb ← pyIndex d.compositional_bias idx
  let fdc ← pyIndex d.domain_cc idx
  let fdf ← pyIndex d.domain_ft idx
  let fmo ← pyIndex d.motif idx
  let fpf ← pyIndex d.protein_families idx
  let freg ← pyIndex d.region idx
  let frep ← pyIndex d.repeat_ann idx
  let fss ← pyIndex d.sequence_similarities idx
  let fzf ← pyIndex d.zinc_finger idx
  return (seq, md, gi, gt,
    { length := flen, go_biological := fbio, go_cellular := fcel,
      go_molecular := fmol, entry_name := fen, protein_names := fpn,
      gene_names := fgn, organism := forg, coiled_coil := fcc,
      compositional_bias := fcb, domain_cc := fdc, domain_ft := fdf,
      motif := fmo, protein_families := fpf, region := freg,
      repeat_ann := frep, sequence_similarities := fss, zinc_finger := fzf })

/-- The Python slice `[0, 1:-1]` on the per-token representations:
batch element 0 is implicit, the leading and trailing special-token
positions are removed. -/
def stripSpecialTokens {α : Type} (xs : List α) : List α :=
  (xs.drop 1).dropLast

/-- Elementwise vector sum. -/
def vecAdd (a b : List Rat) : List Rat := List.zipWith (fun x y => x + y) a b

/-- Elementwise vector difference (`next_embedding - current_embedding`). -/
def vecSub (a b : List Rat) : List Rat := List.zipWith (fun x y => x - y) a b

/-- Sum of a list of vectors. -/
def sumVecs : List (List Rat) → List Rat
  | [] => []
  | [v] => v
  | v :: rest => vecAdd v (sumVecs rest)

/-- Model of `torch.mean(-, dim=0)` over a list of per-residue vectors. -/
def meanPool (vs : List (List Rat)) : List Rat :=
  (sumVecs vs).map (fun x => x / (vs.length : Rat))

/-- The 7-tuple returned by `__getitem__` (lines 243-250 of the source). -/
structure ItemResult where
  primary : List Rat
  secondary : List Rat
  metadata : String
  seq : String
  go_ids : List String
  go_terms : List String
  additional : AdditionalMeta
deriving DecidableEq

/-- The per-item embedding adapter `UniRefDataset.__getitem__`:
`reprs seq layer` stands for the external model's per-token
representations of the tokenized sequence at the requested layer
(`results["representations"][layer][0]`); the adapter strips the
special-token positions of layers `esm_layer` and `esm_layer + 1`,
mean-pools each, and returns either the next-layer vector or the
difference, per `return_difference`. -/
def getitem (reprs : String → Nat → List (List Rat)) (esm_layer : Nat)
    (return_difference : Bool) (d : Dataset) (idx : Int) :
    Except String ItemResult :=
  match getitemFields d idx with
  | Except.error e => Except.error e
  | Except.ok (seq, md, gi, gt, am) =>
    let current_embedding := meanPool (stripSpecialTokens (reprs seq esm_layer))
    let next_embedding := meanPool (stripSpecialTokens (reprs seq (esm_layer + 1)))
    let difference_embedding := vecSub next_embedding current_embedding
    if return_difference then
      Except.ok
        { primary := current_embedding, secondary := difference_embedding,
          metadata := md, seq := seq, go_ids := gi, go_terms := gt, additional := am }
    else
      Except.ok
        { primary := current_embedding, secondary := next_embedding,
          metadata := md, seq := seq, go_ids := gi, go_terms := gt, additional := am }

/- ### Concrete fixtures used to instantiate the theorems -/

/-- An eligible human row carrying semicolon-delimited GO annotations. -/
def rowHuman : Row :=
  { Sequence := "MKV", Entry := "P1",
    Organism := some "Homo sapiens (Human)",
    Length := some 3,
    GeneOntologyIDs := some "A; B ;C",
    GeneOntologyGO := some "",
    GOBiological := some "A; B ;C" }

/-- A row whose sequence exceeds every small length bound. -/
def rowLong : Row :=
  { Sequence := "MKVMKVMKVMKV", Entry := "P2",
    Organism := some "Homo sapiens (Human)" }

/-- A non-human row. -/
def rowMouse : Row :=
  { Sequence := "MK", Entry := "P3",
    Organism := some "Mus musculus (Mouse)" }

/-- A filter-on configuration whose sample budget is never exceeded. -/
def cfgSmall : Config :=
  { max_seq_len := 5, max_samples := 10, random_seed := 42, human_filter := true }

/-- A filter-off configuration forcing the sampling branch
(three eligible rows below, budget one). -/
def cfgSampling : Config :=
  { max_seq_len := 5, max_samples := 1, random_seed := 42, human_filter := false }

/-- Three short unannotated rows, all eligible under `cfgSampling`. -/
def rowsPlain : List Row :=
  [{ Sequence := "A", Entry := "E1" },
   { Sequence := "B", Entry := "E2" },
   { Sequence := "C", Entry := "E3" }]

/-- A degenerate model collaborator returning empty representations. -/
def zeroReprs : String → Nat → List (List Rat) := fun _ _ => []

/-- The field tuple `__getitem__` reads from the parallel arrays for one
record: `(seq, metadata, go_ids, go_terms, additional_metadata)`. -/
def fieldsOfRecord (r : Record) :
    String × String × List String × List String × AdditionalMeta :=
  (r.sequence, r.entry, r.go_ids, r.go_terms,
   { length := r.length, go_biological := r.go_biological,
     go_cellular := r.go_cellular, go_molecular := r.go_molecular,
     entry_name := r.entry_name, protein_names := r.protein_names,
     gene_names := r.gene_names, organism := r.organism,
     coiled_coil := r.coiled_coil, compositional_bias := r.compositional_bias,
     domain_cc := r.domain_cc, domain_ft := r.domain_ft, motif := r.motif,
     protein_families := r.protein_families, region := r.region,
     repeat_ann := r.repeat_ann,
     sequence_similarities := r.sequence_similarities,
     zinc_finger := r.zinc_finger })

/- ### Supporting lemmas -/

theorem splitSemiChars_ne_nil (cs : List Char) : splitSemiChars cs ≠ [] := by
  induction cs with
  | nil => simp [splitSemiChars]
  | cons c rest ih =>
    simp only [splitSemiChars]
    by_cases h : c = ';'
    · simp [h]
    · simp only [h, if_false]
      cases hrec : splitSemiChars rest with
      | nil => simp
      | cons p ps => simp

theorem pySplitSemi_ne_nil (s : String) : pySplitSemi s ≠ [] := by
  simp [pySplitSemi, splitSemiChars_ne_nil s.data]

theorem sampleAux_length (k : Nat) : ∀ (pool : List Nat) (g : Nat), k ≤ pool.length →
    (sampleAux k pool g).1.length = k := by
  induction k with
  | zero => intro pool g _; simp [sampleAux]
  | succ k ih =>
    intro pool g h
    have hp : ¬ pool.length = 0 := by omega
    have hlt : lcg g % pool.length < pool.length := Nat.mod_lt _ (by omega)
    simp only [sampleAux, hp, if_false, List.length_cons]
    rw [ih _ _ (by rw [List.length_eraseIdx]; simp [hlt]; omega)]

theorem sampleAux_mem (k : Nat) : ∀ (pool : List Nat) (g x : Nat),
    x ∈ (sampleAux k pool g).1 → x ∈ pool := by
  induction k with
  | zero => intro pool g x h; simp [sampleAux] at h
  | succ k ih =>
    intro pool g x h
    by_cases hp : pool.length = 0
    · simp [sampleAux, hp] at h
    · simp only [sampleAux, hp, if_false, List.mem_cons] at h
      have hlt : lcg g % pool.length < pool.length := Nat.mod_lt _ (Nat.pos_of_ne_zero hp)
      rcases h with h1 | h2
      · subst h1
        rw [List.getD_eq_getElem?_getD, List.getElem?_eq_getElem hlt]
        exact List.getElem_mem hlt
      · exact List.eraseIdx_subset _ _ (ih _ _ _ h2)

theorem sampleAux_nodup (k : Nat) : ∀ (pool : List Nat) (g : Nat), pool.Nodup →
    (sampleAux k pool g).1.Nodup := by
  induction k with
  | zero => intro pool g _; simp [sampleAux]
  | succ k ih =>
    intro pool g hnd
    by_cases hp : pool.length = 0
    · simp [sampleAux, hp]
    · have hlt : lcg g % pool.length < pool.length := Nat.mod_lt _ (Nat.pos_of_ne_zero hp)
      simp only [sampleAux, hp, if_false, List.nodup_cons]
      refine ⟨?_, ih _ _ (hnd.eraseIdx _)⟩
      intro hmem
      have hgd : pool.getD (lcg g % pool.length) 0 = pool[lcg g % pool.length] := by
        rw [List.getD_eq_getElem?_getD, List.getElem?_eq_getElem hlt]; rfl
      rw [hgd] at hmem
      have hmem2 := sampleAux_mem k _ _ _ hmem
      rw [List.mem_eraseIdx_iff_getElem] at hmem2
      obtain ⟨i, hi, hne, heq⟩ := hmem2
      exact hne (hnd.getElem_inj_iff.mp heq)

theorem sampledIndices_lt (cfg : Config) (rows : List Row) :
    ∀ i ∈ sampledIndices cfg rows, i < (allEligible cfg rows).length := by
  intro i hi
  simp only [sampledIndices, randomSampleG] at hi
  exact List.mem_range.mp (sampleAux_mem _ _ _ _ hi)

theorem sampledIndices_nodup (cfg : Config) (rows : List Row) :
    (sampledIndices cfg rows).Nodup := by
  simp only [sampledIndices, randomSampleG]
  exact sampleAux_nodup _ _ _ (List.nodup_range _)

theorem sampledIndices_length (cfg : Config) (rows : List Row)
    (h : cfg.max_samples ≤ (allEligible cfg rows).length) :
    (sampledIndices cfg rows).length = cfg.max_samples := by
  simp only [sampledIndices, randomSampleG]
  exact sampleAux_length _ _ _ (by simpa using h)

theorem sampleArr_map {α : Type} (f : Record → α) (dflt : α) (elig : List Record)
    (ind : List Nat) (h : ∀ i ∈ ind, i < elig.length) :
    sampleArr dflt (elig.map f) ind = (ind.map (fun i => elig.getD i default)).map f := by
  unfold sampleArr
  rw [List.map_map]
  refine List.map_congr_left ?_
  intro i hi
  have hlt := h i hi
  have hlt2 : i < (elig.map f).length := by simpa using hlt
  simp [List.getD_eq_getElem?_getD, List.getElem?_eq_getElem hlt,
    List.getElem?_eq_getElem hlt2]

theorem mem_allEligible (cfg : Config) (rows : List Row) (r : Record) :
    r ∈ allEligible cfg rows ↔ ∃ row ∈ rows, eligible cfg row = true ∧ recordOf row = r := by
  simp only [allEligible, List.mem_filterMap, processRow]
  constructor
  · rintro ⟨row, hrow, hpr⟩
    by_cases he : eligible cfg row = true
    · rw [if_pos he] at hpr; exact ⟨row, hrow, he, Option.some.inj hpr⟩
    · rw [if_neg he] at hpr; cases hpr
  · rintro ⟨row, hrow, he, hrec⟩
    exact ⟨row, hrow, by rw [if_pos he, hrec]⟩

theorem buildDatasetG_fst (cfg : Config) (rows : List Row) (g : Nat) :
    (buildDatasetG cfg rows g).1 = datasetOfRecords (corpusRecords cfg rows) := by
  have hlt : ∀ i ∈ sampledIndices cfg rows, i < (allEligible cfg rows).length :=
    sampledIndices_lt cfg rows
  by_cases h : cfg.max_samples < (allEligible cfg rows).length
  · simp only [buildDatasetG, corpusRecords, datasetOfRecords, if_pos h,
      sampledIndices, randomSampleG] at hlt ⊢
    rw [Dataset.mk.injEq]
    refine ⟨?_, ?_, ?_, ?_, ?_, ?_, ?_, ?_, ?_, ?_, ?_, ?_, ?_, ?_, ?_, ?_, ?_, ?_, ?_,
      ?_, ?_, ?_⟩ <;>
      exact sampleArr_map _ _ _ _ hlt
  · simp only [buildDatasetG, corpusRecords, datasetOfRecords, if_neg h]

theorem corpusRecords_sub (cfg : Config) (rows : List Row) :
    ∀ r ∈ corpusRecords cfg rows, r ∈ allEligible cfg rows := by
  intro r hr
  simp only [corpusRecords] at hr
  by_cases h : cfg.max_samples < (allEligible cfg rows).length
  · rw [if_pos h] at hr
    obtain ⟨i, hi, rfl⟩ := List.mem_map.mp hr
    have hlt := sampledIndices_lt cfg rows i hi
    rw [List.getD_eq_getElem?_getD, List.getElem?_eq_getElem hlt]
    exact List.getElem_mem hlt
  · rwa [if_neg h] at hr

theorem buildDataset_records (cfg : Config) (rows : List Row) :
    buildDataset cfg rows = datasetOfRecords (corpusRecords cfg rows) :=
  buildDatasetG_fst cfg rows 0

theorem splitStripSemiOpt_eq_nil (o : Option String) :
    splitStripSemiOpt o = [] ↔ o = none := by
  cases o with
  | none => simp [splitStripSemiOpt]
  | some s => simp [splitStripSemiOpt, List.map_eq_nil_iff, pySplitSemi_ne_nil s]

/- ### Claim theorems -/

/-- C1: a record appears in the final corpus iff it comes from an
eligible input row and either no sampling occurred (eligible count within
`max_samples`) or one of the drawn positions holds it; the final corpus is
the record view of the constructed parallel arrays. -/
theorem claim_C1 (cfg : Config) (rows : List Row) (r : Record) :
    buildDataset cfg rows = datasetOfRecords (corpusRecords cfg rows) ∧
    (r ∈ corpusRecords cfg rows ↔
      ((∃ row ∈ rows, eligible cfg row = true ∧ recordOf row = r) ∧
       ((allEligible cfg rows).length ≤ cfg.max_samples ∨
        ∃ i ∈ sampledIndices cfg rows, (allEligible cfg rows)[i]? = some r))) := by
  refine ⟨buildDataset_records cfg rows, ?_⟩
  by_cases h : cfg.max_samples < (allEligible cfg rows).length
  · simp only [corpusRecords, if_pos h]
    constructor
    · intro hr
      obtain ⟨i, hi, rfl⟩ := List.mem_map.mp hr
      have hlt := sampledIndices_lt cfg rows i hi
      have hgd : (allEligible cfg rows).getD i default = (allEligible cfg rows)[i] := by
        rw [List.getD_eq_getElem?_getD, List.getElem?_eq_getElem hlt]; rfl
      refine ⟨(mem_allEligible cfg rows _).mp ?_, Or.inr ⟨i, hi, ?_⟩⟩
      · rw [hgd]; exact List.getElem_mem hlt
      · rw [hgd, List.getElem?_eq_getElem hlt]
    · rintro ⟨hmem, hor⟩
      rcases hor with hle | ⟨i, hi, hget⟩
      · omega
      · refine List.mem_map.mpr ⟨i, hi, ?_⟩
        rw [List.getD_eq_getElem?_getD, hget]
        rfl
  · simp only [corpusRecords, if_neg h]
    constructor
    · intro hr
      exact ⟨(mem_allEligible cfg rows r).mp hr, Or.inl (by omega)⟩
    · rintro ⟨hmem, _⟩
      exact (mem_allEligible cfg rows r).mpr hmem

/-- C2: the size of the final corpus is the minimum of the eligible count
and `max_samples`. -/
theorem claim_C2 (cfg : Config) (rows : List Row) :
    (buildDataset cfg rows).sequences.length =
      min (allEligible cfg rows).length cfg.max_samples := by
  rw [buildDataset_records]
  simp only [datasetOfRecords, List.length_map]
  by_cases h : cfg.max_samples < (allEligible cfg rows).length
  · simp only [corpusRecords, if_pos h, List.length_map]
    rw [sampledIndices_length cfg rows (le_of_lt h)]
    omega
  · simp only [corpusRecords, if_neg h]
    omega

/-- C3: after construction every per-attribute array has the length of
`sequences`, and at every index all attributes are the fields of one
record extracted from a single eligible source row. -/
theorem claim_C3 (cfg : Config) (rows : List Row) :
    ∀ d : Dataset, d = buildDataset cfg rows →
    (d.metadata.length = d.sequences.length ∧
     d.go_ids.length = d.sequences.length ∧
     d.go_terms.length = d.sequences.length ∧
     d.lengths.length = d.sequences.length ∧
     d.go_biological.length = d.sequences.length ∧
     d.go_cellular.length = d.sequences.length ∧
     d.go_molecular.length = d.sequences.length ∧
     d.entry_names.length = d.sequences.length ∧
     d.protein_names.length = d.sequences.length ∧
     d.gene_names.length = d.sequences.length ∧
     d.organisms.length = d.sequences.length ∧
     d.coiled_coil.length = d.sequences.length ∧
     d.compositional_bias.length = d.sequences.length ∧
     d.domain_cc.length = d.sequences.length ∧
     d.domain_ft.length = d.sequences.length ∧
     d.motif.length = d.sequences.length ∧
     d.protein_families.length = d.sequences.length ∧
     d.region.length = d.sequences.length ∧
     d.repeat_ann.length = d.sequences.length ∧
     d.sequence_similarities.length = d.sequences.length ∧
     d.zinc_finger.length = d.sequences.length) ∧
    (∀ idx, idx < d.sequences.length →
      ∃ r : Record, (∃ row ∈ rows, eligible cfg row = true ∧ recordOf row = r) ∧
        d.sequences[idx]? = some r.sequence ∧
        d.metadata[idx]? = some r.entry ∧
        d.go_ids[idx]? = some r.go_ids ∧
        d.go_terms[idx]? = some r.go_terms ∧
        d.lengths[idx]? = some r.length ∧
        d.go_biological[idx]? = some r.go_biological ∧
        d.go_cellular[idx]? = some r.go_cellular ∧
        d.go_molecular[idx]? = some r.go_molecular ∧
        d.entry_names[idx]? = some r.entry_name ∧
        d.protein_names[idx]? = some r.protein_names ∧
        d.gene_names[idx]? = some r.gene_names ∧
        d.organisms[idx]? = some r.organism ∧
        d.coiled_coil[idx]? = some r.coiled_coil ∧
        d.compositional_bias[idx]? = some r.compositional_bias ∧
        d.domain_cc[idx]? = some r.domain_cc ∧
        d.domain_ft[idx]? = some r.domain_ft ∧
        d.motif[idx]? = some r.motif ∧
        d.protein_families[idx]? = some r.protein_families ∧
        d.region[idx]? = some r.region ∧
        d.repeat_ann[idx]? = some r.repeat_ann ∧
        d.sequence_similarities[idx]? = some r.sequence_similarities ∧
        d.zinc_finger[idx]? = some r.zinc_finger) := by
  intro d hd
  subst hd
  rw [buildDataset_records]
  constructor
  · simp [datasetOfRecords]
  · intro idx hlen
    simp only [datasetOfRecords, List.length_map] at hlen
    refine ⟨(corpusRecords cfg rows)[idx], ?_, ?_⟩
    · exact (mem_allEligible cfg rows _).mp
        (corpusRecords_sub cfg rows _ (List.getElem_mem hlen))
    · simp [datasetOfRecords, List.getElem?_map, List.getElem?_eq_getElem hlen]

/-- C3 witness: a concrete aligned index into a concretely built corpus. -/
theorem claim_C3_witness :
    ∃ r : Record, (∃ row ∈ [rowHuman, rowLong, rowMouse],
        eligible cfgSmall row = true ∧ recordOf row = r) ∧
      (buildDataset cfgSmall [rowHuman, rowLong, rowMouse]).sequences[0]? = some r.sequence ∧
      (buildDataset cfgSmall [rowHuman, rowLong, rowMouse]).metadata[0]? = some r.entry ∧
      (buildDataset cfgSmall [rowHuman, rowLong, rowMouse]).go_ids[0]? = some r.go_ids ∧
      (buildDataset cfgSmall [rowHuman, rowLong, rowMouse]).go_terms[0]? = some r.go_terms ∧
      (buildDataset cfgSmall [rowHuman, rowLong, rowMouse]).lengths[0]? = some r.length ∧
      (buildDataset cfgSmall [rowHuman, rowLong, rowMouse]).go_biological[0]? =
        some r.go_biological ∧
      (buildDataset cfgSmall [rowHuman, rowLong, rowMouse]).go_cellular[0]? =
        some r.go_cellular ∧
      (buildDataset cfgSmall [rowHuman, rowLong, rowMouse]).go_molecular[0]? =
        some r.go_molecular ∧
      (buildDataset cfgSmall [rowHuman, rowLong, rowMouse]).entry_names[0]? =
        some r.entry_name ∧
      (buildDataset cfgSmall [rowHuman, rowLong, rowMouse]).protein_names[0]? =
        some r.protein_names ∧
      (buildDataset cfgSmall [rowHuman, rowLong, rowMouse]).gene_names[0]? =
        some r.gene_names ∧
      (buildDataset cfgSmall [rowHuman, rowLong, rowMouse]).organisms[0]? =
        some r.organism ∧
      (buildDataset cfgSmall [rowHuman, rowLong, rowMouse]).coiled_coil[0]? =
        some r.coiled_coil ∧
      (buildDataset cfgSmall [rowHuman, rowLong, rowMouse]).compositional_bias[0]? =
        some r.compositional_bias ∧
      (buildDataset cfgSmall [rowHuman, rowLong, rowMouse]).domain_cc[0]? =
        some r.domain_cc ∧
      (buildDataset cfgSmall [rowHuman, rowLong, rowMouse]).domain_ft[0]? =
        some r.domain_ft ∧
      (buildDataset cfgSmall [rowHuman, rowLong, rowMouse]).motif[0]? = some r.motif ∧
      (buildDataset cfgSmall [rowHuman, rowLong, rowMouse]).protein_families[0]? =
        some r.protein_families ∧
      (buildDataset cfgSmall [rowHuman, rowLong, rowMouse]).region[0]? = some r.region ∧
      (buildDataset cfgSmall [rowHuman, rowLong, rowMouse]).repeat_ann[0]? =
        some r.repeat_ann ∧
      (buildDataset cfgSmall [rowHuman, rowLong, rowMouse]).sequence_similarities[0]? =
        some r.sequence_similarities ∧
      (buildDataset cfgSmall [rowHuman, rowLong, rowMouse]).zinc_finger[0]? =
        some r.zinc_finger :=
  (claim_C3 cfgSmall [rowHuman, rowLong, rowMouse] _ rfl).2 0 (by decide)

/-- C4 counterexample: the GO biological-process category field is split
but not trimmed, so the source value "A; B ;C" is stored with the inner
piece " B " untouched, not as ["A","B","C"]. -/
theorem claim_C4_counterexample :
    (buildDataset cfgSmall [rowHuman]).go_biological[0]? = some ["A", " B ", "C"] ∧
    (["A", " B ", "C"] : List String) ≠ ["A", "B", "C"] := by
  constructor
  · decide
  · decide

/-- C4 amended: for every retained record, the GO identifier and term
lists are obtained by splitting the semicolon-delimited source value and
trimming each piece (so "A; B ;C" yields ["A","B","C"]), while the three
GO category lists are obtained by splitting only, without trimming (so
"A; B ;C" yields ["A"," B ","C"]); any missing source field yields the
empty list. -/
theorem claim_C4_amended (cfg : Config) (row : Row) (r : Record)
    (h : processRow cfg row = some r) :
    (∀ s, row.GeneOntologyIDs = some s → r.go_ids = (pySplitSemi s).map pyStrip) ∧
    (row.GeneOntologyIDs = none → r.go_ids = []) ∧
    (∀ s, row.GeneOntologyGO = some s → r.go_terms = (pySplitSemi s).map pyStrip) ∧
    (row.GeneOntologyGO = none → r.go_terms = []) ∧
    (∀ s, row.GOBiological = some s → r.go_biological = pySplitSemi s) ∧
    (row.GOBiological = none → r.go_biological = []) ∧
    (∀ s, row.GOCellular = some s → r.go_cellular = pySplitSemi s) ∧
    (row.GOCellular = none → r.go_cellular = []) ∧
    (∀ s, row.GOMolecular = some s → r.go_molecular = pySplitSemi s) ∧
    (row.GOMolecular = none → r.go_molecular = []) ∧
    (pySplitSemi "A; B ;C").map pyStrip = ["A", "B", "C"] ∧
    pySplitSemi "A; B ;C" = ["A", " B ", "C"] := by
  unfold processRow at h
  split at h
  · injection h with h
    subst h
    refine ⟨fun s hs => by simp [recordOf, splitStripSemiOpt, hs],
            fun hs => by simp [recordOf, splitStripSemiOpt, hs],
            fun s hs => by simp [recordOf, splitStripSemiOpt, hs],
            fun hs => by simp [recordOf, splitStripSemiOpt, hs],
            fun s hs => by simp [recordOf, splitSemiOpt, hs],
            fun hs => by simp [recordOf, splitSemiOpt, hs],
            fun s hs => by simp [recordOf, splitSemiOpt, hs],
            fun hs => by simp [recordOf, splitSemiOpt, hs],
            fun s hs => by simp [recordOf, splitSemiOpt, hs],
            fun hs => by simp [recordOf, splitSemiOpt, hs],
            by decide, by decide⟩
  · cases h

/-- C4 witness: the amended theorem applied to a concrete retained row. -/
theorem claim_C4_witness :
    (recordOf rowHuman).go_ids = (pySplitSemi "A; B ;C").map pyStrip :=
  (claim_C4_amended cfgSmall rowHuman (recordOf rowHuman) (by decide)).1 "A; B ;C" (by decide)

/-- C5: on an input whose rows are all ineligible the final corpus is
empty, and the loader's average-sequence-length computation (line 187 of
the source, `sum(len(seq) for seq in self.sequences)/len(self.sequences)`)
divides by zero instead of being guarded: the construction crashes with a
`ZeroDivisionError`. -/
theorem claim_C5 :
    (buildDataset cfgSmall [rowLong]).sequences = [] ∧
    averageSequenceLength (buildDataset cfgSmall [rowLong]).sequences =
      Except.error "ZeroDivisionError: division by zero" := by
  refine ⟨by decide, ?_⟩
  rw [show (buildDataset cfgSmall [rowLong]).sequences = [] from by decide]
  rfl

/-- C6 counterexample: the index -1 lies outside the contract range
`0 <= idx < len(corpus)`, yet `__getitem__` on a one-element corpus
succeeds (Python list subscription resolves negative indices from the
end) instead of failing with an out-of-range error. -/
theorem claim_C6_counterexample :
    ¬(0 ≤ (-1 : Int)) ∧
    (getitem zeroReprs 0 false (buildDataset cfgSmall [rowHuman]) (-1)).isOk = true := by
  exact ⟨by decide, by decide⟩

theorem pyIndex_out {α : Type} (xs : List α) (idx : Int)
    (h : (xs.length : Int) ≤ idx ∨ idx + (xs.length : Int) < 0) :
    pyIndex xs idx = Except.error "IndexError: list index out of range" := by
  have hn : (0 : Int) ≤ (xs.length : Int) := Int.ofNat_nonneg _
  simp only [pyIndex]
  rcases h with h | h
  · rw [if_neg (by omega : ¬ idx < 0), if_pos (by omega : (0:Int) ≤ idx)]
    rw [List.getElem?_eq_none (by omega : xs.length ≤ idx.toNat)]
  · rw [if_pos (by omega : idx < 0), if_neg (by omega : ¬ (0:Int) ≤ idx + xs.length)]

theorem pyIndex_map_in {α : Type} (f : Record → α) (rs : List Record) (idx : Int)
    (h1 : 0 ≤ idx + (rs.length : Int)) (h2 : idx < (rs.length : Int)) :
    pyIndex (rs.map f) idx =
      Except.ok (f (rs.getD (if idx < 0 then idx + (rs.length : Int) else idx).toNat default)) := by
  simp only [pyIndex, List.length_map]
  have h0 : (0:Int) ≤ (if idx < 0 then idx + (rs.length : Int) else idx) := by
    split <;> omega
  have hk : (if idx < 0 then idx + (rs.length : Int) else idx).toNat < rs.length := by
    split <;> omega
  rw [if_pos h0, List.getElem?_map, List.getElem?_eq_getElem hk]
  simp [List.getD_eq_getElem?_getD, List.getElem?_eq_getElem hk]

theorem getitemFields_in (rs : List Record) (idx : Int)
    (h1 : 0 ≤ idx + (rs.length : Int)) (h2 : idx < (rs.length : Int)) :
    getitemFields (datasetOfRecords rs) idx =
      Except.ok (fieldsOfRecord
        (rs.getD (if idx < 0 then idx + (rs.length : Int) else idx).toNat default)) := by
  simp only [getitemFields, datasetOfRecords]
  rw [pyIndex_map_in Record.sequence rs idx h1 h2,
    pyIndex_map_in Record.entry rs idx h1 h2,
    pyIndex_map_in Record.go_ids rs idx h1 h2,
    pyIndex_map_in Record.go_terms rs idx h1 h2,
    pyIndex_map_in Record.length rs idx h1 h2,
    pyIndex_map_in Record.go_biological rs idx h1 h2,
    pyIndex_map_in Record.go_cellular rs idx h1 h2,
    pyIndex_map_in Record.go_molecular rs idx h1 h2,
    pyIndex_map_in Record.entry_name rs idx h1 h2,
    pyIndex_map_in Record.protein_names rs idx h1 h2,
    pyIndex_map_in Record.gene_names rs idx h1 h2,
    pyIndex_map_in Record.organism rs idx h1 h2,
    pyIndex_map_in Record.coiled_coil rs idx h1 h2,
    pyIndex_map_in Record.compositional_bias rs idx h1 h2,
    pyIndex_map_in Record.domain_cc rs idx h1 h2,
    pyIndex_map_in Record.domain_ft rs idx h1 h2,
    pyIndex_map_in Record.motif rs idx h1 h2,
    pyIndex_map_in Record.protein_families rs idx h1 h2,
    pyIndex_map_in Record.region rs idx h1 h2,
    pyIndex_map_in Record.repeat_ann rs idx h1 h2,
    pyIndex_map_in Record.sequence_similarities rs idx h1 h2,
    pyIndex_map_in Record.zinc_finger rs idx h1 h2]
  rfl

theorem getitem_python_range (reprs : String → Nat → List (List Rat))
    (esm_layer : Nat) (rd : Bool) (rs : List Record) (idx : Int) :
    (getitem reprs esm_layer rd (datasetOfRecords rs) idx =
        Except.error "IndexError: list index out of range" ↔
      ((rs.length : Int) ≤ idx ∨ idx + (rs.length : Int) < 0)) ∧
    (idx < 0 → 0 ≤ idx + (rs.length : Int) →
      getitem reprs esm_layer rd (datasetOfRecords rs) idx =
        getitem reprs esm_layer rd (datasetOfRecords rs) (idx + (rs.length : Int)) ∧
      (getitem reprs esm_layer rd (datasetOfRecords rs) idx).isOk = true) := by
  constructor
  · constructor
    · intro herr
      by_contra hout
      push_neg at hout
      obtain ⟨h2, h1⟩ := hout
      rw [getitem, getitemFields_in rs idx (by omega) (by omega)] at herr
      cases hrd : rd <;> rw [hrd] at herr <;> simp [fieldsOfRecord] at herr
    · intro hout
      have hseq : pyIndex (datasetOfRecords rs).sequences idx =
          Except.error "IndexError: list index out of range" := by
        apply pyIndex_out
        simpa [datasetOfRecords] using hout
      rw [getitem, getitemFields, hseq]
      rfl
  · intro hneg hnn
    have h2 : idx < (rs.length : Int) := by omega
    have heq : getitemFields (datasetOfRecords rs) idx =
        getitemFields (datasetOfRecords rs) (idx + (rs.length : Int)) := by
      rw [getitemFields_in rs idx hnn h2,
        getitemFields_in rs (idx + (rs.length : Int)) (by omega) (by omega)]
      rw [if_pos hneg, if_neg (by omega : ¬ idx + (rs.length : Int) < 0)]
    constructor
    · rw [getitem, getitem, heq]
    · rw [getitem, getitemFields_in rs idx hnn h2]
      cases rd <;> simp [Except.isOk, Except.toBool]

/-- C6 amended: `__getitem__` fails with an out-of-range `IndexError`
exactly when the index is outside the Python range, that is when
`idx >= len(corpus)` or `idx < -len(corpus)`; a negative index of at most
`len(corpus)` in magnitude is resolved from the end (it returns the same
result as the nonnegative index `idx + len(corpus)`) and succeeds. -/
theorem claim_C6_amended (reprs : String → Nat → List (List Rat)) (esm_layer : Nat)
    (return_difference : Bool) (cfg : Config) (rows : List Row) (idx : Int) :
    (getitem reprs esm_layer return_difference (buildDataset cfg rows) idx =
        Except.error "IndexError: list index out of range" ↔
      (((buildDataset cfg rows).sequences.length : Int) ≤ idx ∨
        idx + ((buildDataset cfg rows).sequences.length : Int) < 0)) ∧
    (idx < 0 → 0 ≤ idx + ((buildDataset cfg rows).sequences.length : Int) →
      getitem reprs esm_layer return_difference (buildDataset cfg rows) idx =
        getitem reprs esm_layer return_difference (buildDataset cfg rows)
          (idx + ((buildDataset cfg rows).sequences.length : Int)) ∧
      (getitem reprs esm_layer return_difference (buildDataset cfg rows) idx).isOk = true) := by
  rw [buildDataset_records]
  have hlen : ((datasetOfRecords (corpusRecords cfg rows)).sequences.length : Int) =
      ((corpusRecords cfg rows).length : Int) := by
    simp [datasetOfRecords]
  rw [hlen]
  exact getitem_python_range reprs esm_layer return_difference (corpusRecords cfg rows) idx

/-- C6 witness: on a concrete one-element corpus the in-range negative
index -1 aliases index 0 and succeeds, and the overflowing index 5 is
characterized as erroneous by the iff. -/
theorem claim_C6_witness :
    (getitem zeroReprs 0 false (buildDataset cfgSmall [rowHuman]) (-1) =
      getitem zeroReprs 0 false (buildDataset cfgSmall [rowHuman])
        (-1 + ((buildDataset cfgSmall [rowHuman]).sequences.length : Int)) ∧
     (getitem zeroReprs 0 false (buildDataset cfgSmall [rowHuman]) (-1)).isOk = true) ∧
    getitem zeroReprs 0 false (buildDataset cfgSmall [rowHuman]) 5 =
      Except.error "IndexError: list index out of range" :=
  ⟨(claim_C6_amended zeroReprs 0 false cfgSmall [rowHuman] (-1)).2 (by decide) (by decide),
   (claim_C6_amended zeroReprs 0 false cfgSmall [rowHuman] 5).1.mpr (Or.inl (by decide))⟩

/-- C7: the loader is deterministic given the seed: two constructions
from arbitrary, possibly different, incoming generator states `g` and
`g'` produce identical datasets (the constructor reseeds the generator
from `random_seed` first), and in the sampling regime the stored arrays
are exactly the eligible rows at the one seed-determined drawn index
list, in drawn order. -/
theorem claim_C7 (cfg : Config) (rows : List Row) (g g' : Nat)
    (h : cfg.max_samples < (allEligible cfg rows).length) :
    (buildDatasetG cfg rows g).1 = (buildDatasetG cfg rows g').1 ∧
    (buildDatasetG cfg rows g).1.sequences =
      sampleArr "" ((allEligible cfg rows).map Record.sequence) (sampledIndices cfg rows) := by
  constructor
  · rfl
  · simp only [buildDatasetG, if_pos h, sampledIndices, randomSampleG]

/-- C7 witness: a concrete sampling configuration run from two different
incoming generator states. -/
theorem claim_C7_witness :
    cfgSampling.max_samples < (allEligible cfgSampling rowsPlain).length ∧
    (buildDatasetG cfgSampling rowsPlain 0).1 = (buildDatasetG cfgSampling rowsPlain 99).1 :=
  ⟨by decide, (claim_C7 cfgSampling rowsPlain 0 99 (by decide)).1⟩

/-- C8: when the eligible count exceeds `max_samples` the drawn positions
are pairwise distinct, exactly `max_samples` many, and the corpus lists
the corresponding eligible records in the order they were drawn; when it
does not, the corpus is all eligible records in original input order. -/
theorem claim_C8 (cfg : Config) (rows : List Row) :
    (cfg.max_samples < (allEligible cfg rows).length →
      (sampledIndices cfg rows).Nodup ∧
      (sampledIndices cfg rows).length = cfg.max_samples ∧
      buildDataset cfg rows =
        datasetOfRecords ((sampledIndices cfg rows).map
          (fun i => (allEligible cfg rows).getD i default))) ∧
    ((allEligible cfg rows).length ≤ cfg.max_samples →
      buildDataset cfg rows = datasetOfRecords (allEligible cfg rows)) := by
  constructor
  · intro h
    refine ⟨sampledIndices_nodup cfg rows, sampledIndices_length cfg rows (le_of_lt h), ?_⟩
    rw [buildDataset_records]
    simp only [corpusRecords, if_pos h]
  · intro h
    rw [buildDataset_records]
    simp only [corpusRecords, if_neg (by omega : ¬ cfg.max_samples < (allEligible cfg rows).length)]

/-- C8 witness: both regimes instantiated concretely. -/
theorem claim_C8_witness :
    (sampledIndices cfgSampling rowsPlain).Nodup ∧
    buildDataset cfgSmall [rowHuman] = datasetOfRecords (allEligible cfgSmall [rowHuman]) :=
  ⟨((claim_C8 cfgSampling rowsPlain).1 (by decide)).1,
   (claim_C8 cfgSmall [rowHuman]).2 (by decide)⟩

/-- C9: for every index and model output, difference mode returns the
normal-mode tuple with the secondary vector replaced by the elementwise
difference of the normal-mode secondary (layer L+1) and primary (layer L)
pooled vectors; every other component is identical, and errors agree. -/
theorem claim_C9 (reprs : String → Nat → List (List Rat)) (esm_layer : Nat)
    (d : Dataset) (idx : Int) :
    getitem reprs esm_layer true d idx =
      (getitem reprs esm_layer false d idx).map
        (fun r => { r with secondary := vecSub r.secondary r.primary }) := by
  unfold getitem
  cases h : getitemFields d idx with
  | error e => rfl
  | ok v =>
    obtain ⟨seq, md, gi, gt, am⟩ := v
    rfl

/-- C10: for every retained record the stored GO identifier list and GO
term list are empty exactly when the corresponding source field was
missing; a present field, even an empty string, never yields the empty
list. -/
theorem claim_C10 (cfg : Config) (row : Row) (r : Record)
    (h : processRow cfg row = some r) :
    (r.go_ids = [] ↔ row.GeneOntologyIDs = none) ∧
    (r.go_terms = [] ↔ row.GeneOntologyGO = none) := by
  unfold processRow at h
  split at h
  · injection h with h
    subst h
    exact ⟨splitStripSemiOpt_eq_nil row.GeneOntologyIDs,
           splitStripSemiOpt_eq_nil row.GeneOntologyGO⟩
  · cases h

/-- C10 witness: a retained row whose GO term field is the present empty
string stores the singleton list containing the empty string, not the
empty list. -/
theorem claim_C10_witness :
    ((recordOf rowHuman).go_terms = [] ↔ rowHuman.GeneOntologyGO = none) :=
  (claim_C10 cfgSmall rowHuman (recordOf rowHuman) (by decide)).2
